import Mathlib

/-!
Verification of the capability-server core of the GPT Researcher MCP server
(`gpt_researcher_mcp.py`).

The tool handlers (`conduct_research`, `deep_research`, `research_local_documents`,
`hybrid_research_with_mcp`, `get_research_capabilities`, `validate_research_setup`)
and the prompt renderers are embedded from the Python source.  The calls into the
external `gpt_researcher` library are opaque: their possible outcomes (a successful
result, an `ImportError`, or any other raised exception) are modelled as an explicit
outcome value passed to the handler, exactly mirroring the `try/except` structure of
the source.

The registry / validator / dispatcher machinery lives in the `fastmcp` framework,
which is not part of the source tree; those definitions are modelled from the
specification (sections 4.1 - 4.4) and are marked as such in their doc comments.
-/

namespace GptResearcherMcp

/-- JSON-like values: the wire-safe payloads exchanged between client and server
(primitives, ordered sequences, mappings with string keys). -/
inductive Value where
  | vnull
  | vbool (b : Bool)
  | vint (n : Int)
  | vstr (s : String)
  | vlist (xs : List Value)
  | vobj (fields : List (String × Value))

/-- Declared parameter types, as FastMCP derives them from the Python type hints:
primitive `str` / `int`, enum-of-literals (`Literal[...]`), bounded numeric range
(pydantic `Field(ge, le)`), list, and the `Optional` variants. -/
inductive FieldType where
  | fstr
  | fint
  | fintRange (lo hi : Int)
  | fenum (lits : List String)
  | flist
  | foptStr
  | foptList

/-- Structured validation violations, as in the specification's Schema Validator. -/
inductive Violation where
  | MissingField (name : String)
  | TypeMismatch (name expected actual : String)
  | OutOfRange (name : String) (lo hi actual : Int)
deriving DecidableEq, Repr

/-- One field of a parameter schema: name, declared type, whether it is required,
and its default value when it has one. -/
structure FieldSpec where
  name : String
  ftype : FieldType
  required : Bool
  default : Option Value

/-- Human-readable name of a declared field type (used in `TypeMismatch` reports). -/
def ftypeName : FieldType → String
  | .fstr => "string"
  | .fint => "integer"
  | .fintRange _ _ => "integer"
  | .fenum _ => "enum"
  | .flist => "array"
  | .foptStr => "string or null"
  | .foptList => "array or null"

/-- Human-readable name of the actual type of a value (used in `TypeMismatch`). -/
def valueTypeName : Value → String
  | .vnull => "null"
  | .vbool _ => "boolean"
  | .vint _ => "number"
  | .vstr _ => "string"
  | .vlist _ => "array"
  | .vobj _ => "object"

/-- Whether a value matches a declared field type (range bounds handled separately). -/
def typeMatches : FieldType → Value → Bool
  | .fstr, .vstr _ => true
  | .fint, .vint _ => true
  | .fintRange _ _, .vint _ => true
  | .fenum lits, .vstr s => lits.contains s
  | .flist, .vlist _ => true
  | .foptStr, .vnull => true
  | .foptStr, .vstr _ => true
  | .foptList, .vnull => true
  | .foptList, .vlist _ => true
  | _, _ => false

/-- Modelled from the spec: type-check one present field against its declaration,
reporting `OutOfRange` for a bounded numeric range and `TypeMismatch` otherwise. -/
def validateField (f : FieldSpec) (v : Value) : Option Violation :=
  match f.ftype, v with
  | .fintRange lo hi, .vint n =>
      if lo ≤ n ∧ n ≤ hi then none else some (.OutOfRange f.name lo hi n)
  | t, w =>
      if typeMatches t w then none else some (.TypeMismatch f.name (ftypeName t) (valueTypeName w))

/-- Look up a field by name in an input mapping. -/
def lookupField (input : List (String × Value)) (name : String) : Option Value :=
  (input.find? fun p => p.1 == name).map Prod.snd

/-- Modelled from the spec: the Schema Validator (spec 4.2), which is part of the
`fastmcp` framework and not under the source tree.  For each declared field in
order: if missing and required with no default, report `MissingField`; if missing
with a default, substitute the default; if present, type-check.  All violations
are collected in one pass (no short-circuit); the result is either a
fully-defaulted, type-checked input mapping or the ordered list of violations. -/
def validate (schema : List FieldSpec) (input : List (String × Value)) :
    Except (List Violation) (List (String × Value)) :=
  let step := fun (acc : List Violation × List (String × Value)) (f : FieldSpec) =>
    match lookupField input f.name with
    | none =>
        match f.default with
        | some d => (acc.1, acc.2 ++ [(f.name, d)])
        | none => if f.required then (acc.1 ++ [.MissingField f.name], acc.2) else acc
    | some v =>
        match validateField f v with
        | none => (acc.1, acc.2 ++ [(f.name, v)])
        | some viol => (acc.1 ++ [viol], acc.2)
  let r := schema.foldl step ([], [])
  if r.1.isEmpty then .ok r.2 else .error r.1

/-- One message of a rendered prompt: a `\x7brole, content\x7d` object. -/
structure Message where
  role : String
  content : String
deriving DecidableEq, Repr

/-- Structured errors carried by the invocation envelope (spec 7). -/
inductive ErrorDescriptor where
  | NotFound (name : String)
  | ValidationError (violations : List Violation)
  | HandlerError (message : String) (cause : Option String)

/-- Modelled from the spec: the uniform invocation envelope.  `success` and
`error` are intended to be mutually exclusive. -/
structure Envelope where
  success : Bool
  payload : Option Value
  error : Option ErrorDescriptor

/-- An operation descriptor: unique name, parameter schema, and handler. -/
structure OpDescriptor where
  name : String
  schema : List FieldSpec
  handler : List (String × Value) → Value

/-- A prompt descriptor: unique name, parameter schema, and a renderer whose
return shape is constrained to an ordered sequence of message objects. -/
structure PromptDescriptor where
  name : String
  schema : List FieldSpec
  renderer : List (String × Value) → List Message

/-- Modelled from the spec: Registry registration (spec 4.1).  Registering a
duplicate name is a fatal `DuplicateNameError`; otherwise the descriptor is
appended, so enumeration order is registration order. -/
def register (reg : List OpDescriptor) (d : OpDescriptor) :
    Except String (List OpDescriptor) :=
  if reg.any fun e => e.name == d.name then .error "DuplicateNameError"
  else .ok (reg ++ [d])

/-- Modelled from the spec: build the registry by registering descriptors in
program order during the startup phase. -/
def buildRegistry (ds : List OpDescriptor) : Except String (List OpDescriptor) :=
  ds.foldlM register []

/-- Names of the registered operations in registration order (spec `listAll`). -/
def listAllNames (reg : List OpDescriptor) : List String :=
  reg.map fun d => d.name

/-- Modelled from the spec: the Invocation Dispatcher (spec 4.3), part of the
`fastmcp` framework and not under the source tree.  Looks the name up in the
registry (`NotFound` envelope on failure), validates the input against the
descriptor's schema (`ValidationError` envelope on violations, handler never
called), otherwise invokes the handler on the validated input and wraps the
payload.  The second component counts handler invocations (0 or 1), the spy
count used by the spec's testable properties. -/
def dispatch (reg : List OpDescriptor) (name : String) (input : List (String × Value)) :
    Envelope × Nat :=
  match reg.find? fun d => d.name == name with
  | none => ({ success := false, payload := none, error := some (.NotFound name) }, 0)
  | some d =>
      match validate d.schema input with
      | .error vs => ({ success := false, payload := none, error := some (.ValidationError vs) }, 0)
      | .ok validated => ({ success := true, payload := some (d.handler validated), error := none }, 1)

/-- Modelled from the spec: `renderPrompt` (spec 4.4) — identical validation step
to operations, but the return shape is an ordered sequence of message objects. -/
def renderPrompt (prompts : List PromptDescriptor) (name : String)
    (input : List (String × Value)) : Except ErrorDescriptor (List Message) :=
  match prompts.find? fun d => d.name == name with
  | none => .error (.NotFound name)
  | some d =>
      match validate d.schema input with
      | .error vs => .error (.ValidationError vs)
      | .ok validated => .ok (d.renderer validated)

/-- Outcome of the opaque `gpt_researcher` library interaction inside
`conduct_research` (`GPTResearcher(...)`, `conduct_research()`, `write_report()`,
`get_timestamp()`): a successful run carrying the report, the citations, the
timestamp and the research steps; an `ImportError` on
`from gpt_researcher import GPTResearcher`; or any other raised exception with
its `str(e)` message. -/
inductive ResearchOutcome where
  | ok (report : String) (citations : List String) (timestamp : String)
      (research_steps : List Value)
  | importError
  | raised (msg : String)

/-- Outcome of the opaque library interaction inside `deep_research`
(`conduct_deep_research()`, `write_report()`, `get_timestamp()`), with the
research tree and the explored-subtopics count of the successful run. -/
inductive DeepOutcome where
  | ok (report : String) (citations : List String) (timestamp : String)
      (research_tree : List (String × Value)) (subtopics_count : Int)
  | importError
  | raised (msg : String)

/-- The result dictionary shape shared by `conduct_research`, `deep_research`,
`research_local_documents` and `hybrid_research_with_mcp`:
keys `success`, `query`, `report`, `citations`, `metadata`, `error`. -/
structure ResultDict where
  success : Bool
  query : String
  report : String
  citations : List String
  metadata : List (String × Value)
  error : Option String

/-- Embedding of `conduct_research` (gpt_researcher_mcp.py lines 66-157).
The library interaction is abstracted by `outcome`; each `return` branch of the
Python `try/except` is reproduced verbatim.  The environment-variable writes
(`DOC_PATH`, `RETRIEVER`) only feed the opaque library call and are absorbed
into the outcome. -/
def conduct_research (outcome : ResearchOutcome) (query : String)
    (report_type : String) (report_source : String) (max_iterations : Int)
    (doc_path : Option String) (retriever : String)
    (mcp_configs : Option (List Value)) : ResultDict :=
  match outcome with
  | .ok report citations timestamp research_steps =>
      { success := true
        query := query
        report := report
        citations := citations
        metadata := [("query", .vstr query),
                     ("report_type", .vstr report_type),
                     ("report_source", .vstr report_source),
                     ("max_iterations", .vint max_iterations),
                     ("retriever", .vstr retriever),
                     ("timestamp", .vstr timestamp),
                     ("research_steps", .vlist research_steps),
                     ("total_sources", .vint citations.length)]
        error := none }
  | .importError =>
      { success := false
        query := query
        report := ""
        citations := []
        metadata := []
        error := some "GPT Researcher not installed. Install with: pip install gpt-researcher" }
  | .raised msg =>
      { success := false
        query := query
        report := ""
        citations := []
        metadata := []
        error := some ("Research failed: " ++ msg) }

/-- Embedding of `research_local_documents` (lines 161-186): delegates to
`conduct_research.fn` with `report_source="local"`, `retriever="local"`, the
given `doc_path`, and `conduct_research`'s own defaults `max_iterations=3`,
`mcp_configs=None`. -/
def research_local_documents (outcome : ResearchOutcome) (query : String)
    (doc_path : String) (report_type : String) : ResultDict :=
  conduct_research outcome query report_type "local" 3 (some doc_path) "local" none

/-- Embedding of `deep_research` (lines 190-273), with the library interaction
abstracted by `outcome` and each `return` branch reproduced verbatim. -/
def deep_research (outcome : DeepOutcome) (query : String)
    (depth : Int) (breadth : Int) (max_iterations : Int) : ResultDict :=
  match outcome with
  | .ok report citations timestamp research_tree subtopics_count =>
      { success := true
        query := query
        report := report
        citations := citations
        metadata := [("query", .vstr query),
                     ("research_type", .vstr "deep_research"),
                     ("depth", .vint depth),
                     ("breadth", .vint breadth),
                     ("max_iterations", .vint max_iterations),
                     ("timestamp", .vstr timestamp),
                     ("research_tree", .vobj research_tree),
                     ("total_sources", .vint citations.length),
                     ("subtopics_explored", .vint subtopics_count)]
        error := none }
  | .importError =>
      { success := false
        query := query
        report := ""
        citations := []
        metadata := []
        error := some "GPT Researcher not installed. Install with: pip install gpt-researcher" }
  | .raised msg =>
      { success := false
        query := query
        report := ""
        citations := []
        metadata := []
        error := some ("Deep research failed: " ++ msg) }

/-- Embedding of `hybrid_research_with_mcp` (lines 277-302): delegates to
`conduct_research.fn` with `report_source="web"`, `retriever="tavily,mcp"`, the
given `mcp_configs`, and `conduct_research`'s own defaults `max_iterations=3`,
`doc_path=None`. -/
def hybrid_research_with_mcp (outcome : ResearchOutcome) (query : String)
    (mcp_configs : List Value) (report_type : String) : ResultDict :=
  conduct_research outcome query report_type "web" 3 none "tavily,mcp" (some mcp_configs)

/-- The result shape of `get_research_capabilities`:
keys `success`, `capabilities`, `error`. -/
structure CapabilitiesResult where
  success : Bool
  capabilities : List (String × Value)
  error : Option String

/-- The capabilities dictionary built by `get_research_capabilities`
(lines 316-336), reproduced verbatim. -/
def capabilitiesDict : List (String × Value) :=
  [("supported_report_types",
      .vlist [.vstr "research_report", .vstr "resource_report", .vstr "outline_report"]),
   ("supported_sources", .vlist [.vstr "web", .vstr "local", .vstr "hybrid"]),
   ("supported_document_formats",
      .vlist [.vstr "PDF", .vstr "TXT", .vstr "CSV", .vstr "Excel", .vstr "Markdown",
              .vstr "PowerPoint", .vstr "Word documents"]),
   ("available_retrievers", .vlist [.vstr "tavily", .vstr "mcp", .vstr "local"]),
   ("deep_research_available", .vbool true),
   ("mcp_integration_available", .vbool true),
   ("local_document_support", .vbool true),
   ("citation_support", .vbool true),
   ("multi_agent_support", .vbool true),
   ("configuration_options",
      .vobj [("max_iterations", .vstr "1-10"),
             ("depth", .vstr "1-5 (for deep research)"),
             ("breadth", .vstr "1-10 (for deep research)"),
             ("report_types",
                .vlist [.vstr "research_report", .vstr "resource_report", .vstr "outline_report"]),
             ("sources", .vlist [.vstr "web", .vstr "local", .vstr "hybrid"])])]

/-- Embedding of `get_research_capabilities` (lines 306-349).  The only opaque
interaction is `from gpt_researcher import GPTResearcher`, abstracted by
`installed` (false models the `ImportError` branch). -/
def get_research_capabilities (installed : Bool) : CapabilitiesResult :=
  if installed then
    { success := true, capabilities := capabilitiesDict, error := none }
  else
    { success := false
      capabilities := []
      error := some "GPT Researcher not installed. Install with: pip install gpt-researcher" }

/-- Python truthiness of `os.getenv(...)`: `None` and the empty string are falsy. -/
def pyTruthyStr : Option String → Bool
  | none => false
  | some s => !s.isEmpty

/-- The environment the handlers observe: the opaque library outcomes, whether
`gpt_researcher` is importable, the three API-key environment variables, and
importability of the optional dependencies checked by `validate_research_setup`. -/
structure WorldEnv where
  conductOutcome : ResearchOutcome
  deepOutcome : DeepOutcome
  gptInstalled : Bool
  openaiKey : Option String
  tavilyKey : Option String
  githubToken : Option String
  phue2Installed : Bool
  requestsInstalled : Bool
  bs4Installed : Bool

/-- The `validation_results` dictionary of `validate_research_setup`. -/
structure SetupValidation where
  gpt_researcher_installed : Bool
  required_dependencies : List (String × Bool)
  api_keys_configured : List (String × Bool)
  setup_instructions : List String

/-- The result shape of `validate_research_setup`:
keys `success`, `validation_results`, `error`. -/
structure SetupResult where
  success : Bool
  validation_results : SetupValidation
  error : Option String

/-- Embedding of `validate_research_setup` (lines 353-407): records whether
`gpt_researcher` imports, which API keys are configured (Python truthiness of
`os.getenv`), which optional dependencies import, and accumulates setup
instructions in program order; always returns `success=True`, `error=None`. -/
def validate_research_setup (w : WorldEnv) : SetupResult :=
  let api_keys : List (String × Option String) :=
    [("OPENAI_API_KEY", w.openaiKey), ("TAVILY_API_KEY", w.tavilyKey),
     ("GITHUB_TOKEN", w.githubToken)]
  let instr0 : List String :=
    if w.gptInstalled then [] else ["Install GPT Researcher: pip install gpt-researcher"]
  let keyInstr : List String :=
    (api_keys.filter fun p => !pyTruthyStr p.2).map fun p =>
      "Set " ++ p.1 ++ " environment variable for full functionality"
  let optional_deps : List (String × Bool) :=
    [("phue2", w.phue2Installed), ("requests", w.requestsInstalled),
     ("beautifulsoup4", w.bs4Installed)]
  { success := true
    validation_results :=
      { gpt_researcher_installed := w.gptInstalled
        required_dependencies := optional_deps
        api_keys_configured := api_keys.map fun p => (p.1, pyTruthyStr p.2)
        setup_instructions := instr0 ++ keyInstr }
    error := none }

/-- Parameter schema of the `conduct_research` tool, as FastMCP derives it from
the Python signature (lines 66-74): `query: str` (required, no default),
`report_type` / `report_source` enums with defaults, `max_iterations: int = 3`
(a plain `int` — the signature declares no bounds), `doc_path: Optional[str] = None`,
`retriever: str = "tavily"`, `mcp_configs: Optional[List[Dict]] = None`. -/
def conductResearchSchema : List FieldSpec :=
  [⟨"query", .fstr, true, none⟩,
   ⟨"report_type", .fenum ["research_report", "resource_report", "outline_report"],
      false, some (.vstr "research_report")⟩,
   ⟨"report_source", .fenum ["web", "local", "hybrid"], false, some (.vstr "web")⟩,
   ⟨"max_iterations", .fint, false, some (.vint 3)⟩,
   ⟨"doc_path", .foptStr, false, some .vnull⟩,
   ⟨"retriever", .fstr, false, some (.vstr "tavily")⟩,
   ⟨"mcp_configs", .foptList, false, some .vnull⟩]

/-- Parameter schema of the unused pydantic model `ResearchConfig`
(lines 24-52): identical to `conductResearchSchema` except that
`max_iterations` is declared with `Field(ge=1, le=10)`, a bounded numeric
range 1-10.  No tool handler references this model. -/
def researchConfigSchema : List FieldSpec :=
  [⟨"query", .fstr, true, none⟩,
   ⟨"report_type", .fenum ["research_report", "resource_report", "outline_report"],
      false, some (.vstr "research_report")⟩,
   ⟨"report_source", .fenum ["web", "local", "hybrid"], false, some (.vstr "web")⟩,
   ⟨"max_iterations", .fintRange 1 10, false, some (.vint 3)⟩,
   ⟨"doc_path", .foptStr, false, some .vnull⟩,
   ⟨"retriever", .fstr, false, some (.vstr "tavily")⟩,
   ⟨"mcp_configs", .foptList, false, some .vnull⟩]

/-- Parameter schema of `research_local_documents` (lines 161-165):
`query: str` and `doc_path: str` required, `report_type` enum with default. -/
def researchLocalDocumentsSchema : List FieldSpec :=
  [⟨"query", .fstr, true, none⟩,
   ⟨"doc_path", .fstr, true, none⟩,
   ⟨"report_type", .fenum ["research_report", "resource_report", "outline_report"],
      false, some (.vstr "research_report")⟩]

/-- Parameter schema of `deep_research` (lines 190-195): `query: str` required,
`depth: int = 3`, `breadth: int = 5`, `max_iterations: int = 5`. -/
def deepResearchSchema : List FieldSpec :=
  [⟨"query", .fstr, true, none⟩,
   ⟨"depth", .fint, false, some (.vint 3)⟩,
   ⟨"breadth", .fint, false, some (.vint 5)⟩,
   ⟨"max_iterations", .fint, false, some (.vint 5)⟩]

/-- Parameter schema of `hybrid_research_with_mcp` (lines 277-281): two
required fields with no defaults — `query: str` and
`mcp_configs: List[Dict[str, Any]]` — plus `report_type` enum with default. -/
def hybridResearchSchema : List FieldSpec :=
  [⟨"query", .fstr, true, none⟩,
   ⟨"mcp_configs", .flist, true, none⟩,
   ⟨"report_type", .fenum ["research_report", "resource_report", "outline_report"],
      false, some (.vstr "research_report")⟩]

/-- Read a string field from a validated input mapping. -/
def getStr (m : List (String × Value)) (k : String) : String :=
  match lookupField m k with
  | some (.vstr s) => s
  | _ => ""

/-- Read an integer field from a validated input mapping. -/
def getInt (m : List (String × Value)) (k : String) : Int :=
  match lookupField m k with
  | some (.vint n) => n
  | _ => 0

/-- Read an optional string field from a validated input mapping. -/
def getOptStr (m : List (String × Value)) (k : String) : Option String :=
  match lookupField m k with
  | some (.vstr s) => some s
  | _ => none

/-- Read an optional list field from a validated input mapping. -/
def getOptList (m : List (String × Value)) (k : String) : Option (List Value) :=
  match lookupField m k with
  | some (.vlist xs) => some xs
  | _ => none

/-- Serialize a research result dictionary as a wire value. -/
def resultToValue (r : ResultDict) : Value :=
  .vobj [("success", .vbool r.success),
         ("query", .vstr r.query),
         ("report", .vstr r.report),
         ("citations", .vlist (r.citations.map Value.vstr)),
         ("metadata", .vobj r.metadata),
         ("error", match r.error with | none => .vnull | some s => .vstr s)]

/-- Serialize a capabilities result as a wire value. -/
def capabilitiesToValue (r : CapabilitiesResult) : Value :=
  .vobj [("success", .vbool r.success),
         ("capabilities", .vobj r.capabilities),
         ("error", match r.error with | none => .vnull | some s => .vstr s)]

/-- Serialize a setup-validation result as a wire value. -/
def setupToValue (r : SetupResult) : Value :=
  .vobj [("success", .vbool r.success),
         ("validation_results",
            .vobj [("gpt_researcher_installed",
                      .vbool r.validation_results.gpt_researcher_installed),
                   ("required_dependencies",
                      .vobj (r.validation_results.required_dependencies.map
                        fun p => (p.1, Value.vbool p.2))),
                   ("api_keys_configured",
                      .vobj (r.validation_results.api_keys_configured.map
                        fun p => (p.1, Value.vbool p.2))),
                   ("setup_instructions",
                      .vlist (r.validation_results.setup_instructions.map Value.vstr))]),
         ("error", match r.error with | none => .vnull | some s => .vstr s)]

/-- The six operation descriptors of the server, in the registration order of
the `@mcp.tool` decorators in the source file, each pairing its derived schema
with its embedded handler. -/
def gptOps (w : WorldEnv) : List OpDescriptor :=
  [⟨"conduct_research", conductResearchSchema, fun m =>
      resultToValue (conduct_research w.conductOutcome (getStr m "query")
        (getStr m "report_type") (getStr m "report_source") (getInt m "max_iterations")
        (getOptStr m "doc_path") (getStr m "retriever") (getOptList m "mcp_configs"))⟩,
   ⟨"research_local_documents", researchLocalDocumentsSchema, fun m =>
      resultToValue (research_local_documents w.conductOutcome (getStr m "query")
        (getStr m "doc_path") (getStr m "report_type"))⟩,
   ⟨"deep_research", deepResearchSchema, fun m =>
      resultToValue (deep_research w.deepOutcome (getStr m "query")
        (getInt m "depth") (getInt m "breadth") (getInt m "max_iterations"))⟩,
   ⟨"hybrid_research_with_mcp", hybridResearchSchema, fun m =>
      resultToValue (hybrid_research_with_mcp w.conductOutcome (getStr m "query")
        ((getOptList m "mcp_configs").getD []) (getStr m "report_type"))⟩,
   ⟨"get_research_capabilities", [], fun _ =>
      capabilitiesToValue (get_research_capabilities w.gptInstalled)⟩,
   ⟨"validate_research_setup", [], fun _ =>
      setupToValue (validate_research_setup w)⟩]

/-- The server's operation registry, built by registering the six descriptors
in source order at startup. -/
def gptRegistry (w : WorldEnv) : Except String (List OpDescriptor) :=
  buildRegistry (gptOps w)

/-- Embedding of the `research_outline_prompt` body (lines 534-547): the
f-string with `topic` interpolated. -/
def research_outline_prompt (topic : String) : String :=
  "\nCreate a comprehensive research outline for the topic: \x22" ++ topic ++
  "\x22\n\nThe outline should include:\n1. Main research question\n2. Key subtopics to explore\n3. Potential sources to investigate\n4. Expected findings areas\n5. Research methodology suggestions\n\nFocus on creating a structured approach that will lead to a thorough understanding of the topic.\n"

/-- Embedding of the `research_analysis_prompt` body (lines 551-567): the
f-string with `query` and `findings` interpolated. -/
def research_analysis_prompt (query : String) (findings : String) : String :=
  "\nResearch Query: " ++ query ++ "\n\nResearch Findings:\n" ++ findings ++
  "\n\nPlease provide:\n1. Key insights and patterns\n2. Contradictions or conflicting information\n3. Gaps in the research\n4. Recommendations for further investigation\n5. Summary of the most important findings\n\nFocus on critical analysis and actionable insights.\n"

/-- The two prompt descriptors of the server.  The Python renderers return bare
strings; the framework (not under the source tree) wraps a string return into a
single user message, so the renderers here produce that one-element message
sequence, as the spec's `renderPrompt` requires. -/
def gptPrompts : List PromptDescriptor :=
  [⟨"research-outline", [⟨"topic", .fstr, true, none⟩], fun m =>
      [⟨"user", research_outline_prompt (getStr m "topic")⟩]⟩,
   ⟨"research-analysis",
      [⟨"query", .fstr, true, none⟩, ⟨"findings", .fstr, true, none⟩], fun m =>
      [⟨"user", research_analysis_prompt (getStr m "query") (getStr m "findings")⟩]⟩]

/-- A concrete environment in which the `gpt_researcher` library is absent:
every library interaction raises `ImportError` and no API key is set. -/
def wImportError : WorldEnv :=
  ⟨.importError, .importError, false, none, none, none, false, false, false⟩

/-- C1: for every input on which the underlying research library raises
(`ImportError` or any other exception), `conduct_research` and `deep_research`
return a result dictionary with `success=false` and an error description,
instead of raising past the dispatcher. -/
theorem conduct_and_deep_research_return_envelope_on_failure
    (q rt rs r m : String) (mi d b mi2 : Int) (dp : Option String)
    (mc : Option (List Value)) :
    (conduct_research .importError q rt rs mi dp r mc).success = false
  ∧ ((conduct_research .importError q rt rs mi dp r mc).error).isSome = true
  ∧ (conduct_research (.raised m) q rt rs mi dp r mc).success = false
  ∧ ((conduct_research (.raised m) q rt rs mi dp r mc).error).isSome = true
  ∧ (deep_research .importError q d b mi2).success = false
  ∧ ((deep_research .importError q d b mi2).error).isSome = true
  ∧ (deep_research (.raised m) q d b mi2).success = false
  ∧ ((deep_research (.raised m) q d b mi2).error).isSome = true :=
  ⟨rfl, rfl, rfl, rfl, rfl, rfl, rfl, rfl⟩

/-- C2: in every result dictionary of the five operations, `success` is true if
and only if `error` is null, and in every failure branch the payload fields
(`report`, `metadata`, `capabilities`) are empty. -/
theorem success_iff_error_none (oc : ResearchOutcome) (dc : DeepOutcome)
    (inst : Bool) (q rt rs r dpS m : String) (mi d b mi2 : Int)
    (dp : Option String) (mc : Option (List Value)) (mcl : List Value) :
    ((conduct_research oc q rt rs mi dp r mc).success = true ↔
      (conduct_research oc q rt rs mi dp r mc).error = none)
  ∧ ((deep_research dc q d b mi2).success = true ↔
      (deep_research dc q d b mi2).error = none)
  ∧ ((research_local_documents oc q dpS rt).success = true ↔
      (research_local_documents oc q dpS rt).error = none)
  ∧ ((hybrid_research_with_mcp oc q mcl rt).success = true ↔
      (hybrid_research_with_mcp oc q mcl rt).error = none)
  ∧ ((get_research_capabilities inst).success = true ↔
      (get_research_capabilities inst).error = none)
  ∧ (conduct_research .importError q rt rs mi dp r mc).report = ""
  ∧ (conduct_research (.raised m) q rt rs mi dp r mc).report = ""
  ∧ (conduct_research .importError q rt rs mi dp r mc).metadata = []
  ∧ (conduct_research (.raised m) q rt rs mi dp r mc).metadata = []
  ∧ (deep_research .importError q d b mi2).report = ""
  ∧ (deep_research (.raised m) q d b mi2).report = ""
  ∧ (get_research_capabilities false).capabilities = [] := by
  refine ⟨?_, ?_, ?_, ?_, ?_, rfl, rfl, rfl, rfl, rfl, rfl, rfl⟩ <;>
  cases oc <;> cases dc <;> cases inst <;>
    simp [conduct_research, deep_research, research_local_documents,
          hybrid_research_with_mcp, get_research_capabilities]

/-- C3: validation collects all violations in one pass — `conduct_research`
with empty input yields exactly the one violation `MissingField("query")`, and
`hybrid_research_with_mcp` (two required fields, `query` and `mcp_configs`,
with no defaults) with empty input yields exactly two violations. -/
theorem validate_empty_input_missing_fields :
    validate conductResearchSchema [] = .error [.MissingField "query"]
  ∧ validate hybridResearchSchema [] =
      .error [.MissingField "query", .MissingField "mcp_configs"] :=
  ⟨rfl, rfl⟩

/-- C4 (code evaluated at the failing input): calling `conduct_research` with
`max_iterations=15` passes validation against the tool's actual schema (a plain
`int`), the handler is invoked (spy count 1), while the bounded range 1-10
declared on the unused `ResearchConfig` model would have rejected it with
`OutOfRange`. -/
theorem conduct_research_out_of_range_passes_validation :
    validate conductResearchSchema [("query", .vstr "x"), ("max_iterations", .vint 15)] =
      .ok [("query", .vstr "x"),
           ("report_type", .vstr "research_report"),
           ("report_source", .vstr "web"),
           ("max_iterations", .vint 15),
           ("doc_path", .vnull),
           ("retriever", .vstr "tavily"),
           ("mcp_configs", .vnull)]
  ∧ (dispatch (gptOps wImportError) "conduct_research"
       [("query", .vstr "x"), ("max_iterations", .vint 15)]).2 = 1
  ∧ validate researchConfigSchema [("query", .vstr "x"), ("max_iterations", .vint 15)] =
      .error [.OutOfRange "max_iterations" 1 10 15] :=
  ⟨rfl, rfl, rfl⟩

/-- C5: dispatching a call to a name not registered in the operation namespace
yields a `NotFound` failure envelope and invokes no handler (spy count 0). -/
theorem dispatch_unregistered_not_found (reg : List OpDescriptor) (name : String)
    (input : List (String × Value)) (h : ∀ d ∈ reg, d.name ≠ name) :
    dispatch reg name input =
      ({ success := false, payload := none, error := some (.NotFound name) }, 0) := by
  have hf : reg.find? (fun d => d.name == name) = none := by
    rw [List.find?_eq_none]
    intro d hd
    simpa using h d hd
  simp [dispatch, hf]

/-- Witness for C5: dispatching `missing_operation` against the server's
operation list returns the `NotFound` envelope with spy count 0. -/
theorem dispatch_unregistered_not_found_witness :
    dispatch (gptOps wImportError) "missing_operation" [] =
      ({ success := false, payload := none,
         error := some (.NotFound "missing_operation") }, 0) :=
  dispatch_unregistered_not_found (gptOps wImportError) "missing_operation" []
    (by decide)

/-- C6: in the `ImportError` case, `conduct_research` and `deep_research`
return the failure envelope with the exact error string
`GPT Researcher not installed. Install with: pip install gpt-researcher`,
`success=false`, empty report, empty citations and empty metadata. -/
theorem import_error_envelope (q rt rs r : String) (mi d b mi2 : Int)
    (dp : Option String) (mc : Option (List Value)) :
    conduct_research .importError q rt rs mi dp r mc =
      { success := false, query := q, report := "", citations := [], metadata := [],
        error := some "GPT Researcher not installed. Install with: pip install gpt-researcher" }
  ∧ deep_research .importError q d b mi2 =
      { success := false, query := q, report := "", citations := [], metadata := [],
        error := some "GPT Researcher not installed. Install with: pip install gpt-researcher" } :=
  ⟨rfl, rfl⟩

/-- C7: the registry built from the source file registers exactly the six
operation names, without duplicates, in registration order. -/
theorem list_operations_names (w : WorldEnv) :
    (gptRegistry w).map listAllNames =
      .ok ["conduct_research", "research_local_documents", "deep_research",
           "hybrid_research_with_mcp", "get_research_capabilities",
           "validate_research_setup"]
  ∧ List.Nodup ["conduct_research", "research_local_documents", "deep_research",
       "hybrid_research_with_mcp", "get_research_capabilities",
       "validate_research_setup"] :=
  ⟨rfl, by decide⟩

/-- C8: rendering the two registered prompts on valid input yields an ordered
list of message objects with `role` and `content` — one user message holding
the rendered template — not a bare string. -/
theorem render_prompts_message_lists (topic q findings : String) :
    renderPrompt gptPrompts "research-outline" [("topic", .vstr topic)] =
      .ok [⟨"user", research_outline_prompt topic⟩]
  ∧ renderPrompt gptPrompts "research-analysis"
      [("query", .vstr q), ("findings", .vstr findings)] =
      .ok [⟨"user", research_analysis_prompt q findings⟩] :=
  ⟨rfl, rfl⟩

/-- C9: `research_local_documents` returns exactly the result of
`conduct_research` with `report_source="local"`, `max_iterations=3`, the given
`doc_path`, `retriever="local"`, `mcp_configs=None`; and
`hybrid_research_with_mcp` returns exactly the result of `conduct_research`
with `report_source="web"`, `max_iterations=3`, `doc_path=None`,
`retriever="tavily,mcp"` and the given `mcp_configs`. -/
theorem delegation_equivalence (oc : ResearchOutcome) (q dp rt : String)
    (mc : List Value) :
    research_local_documents oc q dp rt =
      conduct_research oc q rt "local" 3 (some dp) "local" none
  ∧ hybrid_research_with_mcp oc q mc rt =
      conduct_research oc q rt "web" 3 none "tavily,mcp" (some mc) :=
  ⟨rfl, rfl⟩

/-- C10: on every outcome branch (success, dependency missing, handler
failure), the result dictionaries of `conduct_research` and `deep_research`
carry a `query` field equal to the query argument passed in. -/
theorem query_preserved_in_result (oc : ResearchOutcome) (dc : DeepOutcome)
    (q rt rs r : String) (mi d b mi2 : Int) (dp : Option String)
    (mc : Option (List Value)) :
    (conduct_research oc q rt rs mi dp r mc).query = q
  ∧ (deep_research dc q d b mi2).query = q := by
  cases oc <;> cases dc <;> exact ⟨rfl, rfl⟩

end GptResearcherMcp
